import Mathlib

/-
Verification of the ticket content-assembly and truncation-budgeting engine
of the ronnin service.

Shallow embedding conventions:
* Go strings are modelled as `List Char` (`GoStr`); `len` is `List.length`.
  The Go `len` counts bytes while this model counts characters; the two agree
  on ASCII data, and every fixed markup constant in the source is ASCII.
* A Go slice expression `s[:k]` panics when `k` is negative or larger than
  `len(s)`; it is modelled by `goSlice`, which returns `none` exactly in the
  panicking cases.  Functions that can reach such a slice return `Option`.
* Go integer division truncates toward zero; it is modelled by `Int.tdiv`.
* Calls into external libraries (`encoding/json` marshalling, the Jira
  client, MongoDB, `math/rand`) are not reimplemented: marshalled strings
  are taken as inputs, decoders are taken as function parameters, and the
  outcomes of external calls are taken as inputs.  All control flow around
  them is translated from the source (`internal/services` Jira service,
  `internal/models/ticket.go`, `internal/handlers/report.go`).
-/

/-- Go strings as character lists. -/
abbrev GoStr := List Char

/-- Embed a Lean string literal as a `GoStr`. -/
def gs (s : String) : GoStr := s.data

/-- The double-quote character. -/
def dquote : Char := '"'

/-- The single-quote character (code point 39). -/
def squote : Char := Char.ofNat 39

/-- The backslash character. -/
def bslash : Char := '\\'

/-- Go slice `s[:k]` with an `int` bound: `none` models the runtime panic
when `k < 0` or `k > len(s)`. -/
def goSlice (s : GoStr) (k : Int) : Option GoStr :=
  if 0 ≤ k ∧ k ≤ (s.length : Int) then some (s.take k.toNat) else none

/-- Go slice `s[lo:hi]`: `none` models the runtime panic when the bounds
are out of range or inverted. -/
def goSliceRange (s : GoStr) (lo hi : Int) : Option GoStr :=
  if 0 ≤ lo ∧ lo ≤ hi ∧ hi ≤ (s.length : Int) then
    some ((s.drop lo.toNat).take (hi - lo).toNat)
  else none

/-- Jira description ceiling: `maxJiraDescLength` from `CreateTicket`. -/
def maxJiraDescLength : Int := 32000

/-- Budget allocations for the four variable sections
(`networkCallsLimit`, `headersLimit`, `responseLimit`, `payloadLimit`). -/
structure Budget where
  networkCalls : Int
  headers : Int
  response : Int
  payload : Int
deriving DecidableEq, Repr

/-- The budget allocator from `CreateTicket`: `remainingChars` is the
ceiling minus the essential length (not clamped in the source), network
calls get `remaining/2`, headers and response `remaining/5` each, and the
payload the rest.  Division is Go division (truncation toward zero). -/
def allocateBudget (ceiling essentialLength : Int) : Budget :=
  let remainingChars := ceiling - essentialLength
  { networkCalls := Int.tdiv remainingChars 2
    headers := Int.tdiv remainingChars 5
    response := Int.tdiv remainingChars 5
    payload := remainingChars - Int.tdiv remainingChars 2
      - Int.tdiv remainingChars 5 - Int.tdiv remainingChars 5 }

/-- Panel opener for the failed-network-calls section. -/
def ncPanelStart : GoStr :=
  gs "\x7bpanel:title=Failed Network Calls|collapsed=true|borderStyle=solid|borderColor=#ddd|titleBGColor=#f7f7f7|bgColor=#fff\x7d\n"

/-- Panel opener for the request-headers section. -/
def hdrPanelStart : GoStr :=
  gs "\x7bpanel:title=Request Headers|collapsed=true|borderStyle=solid|borderColor=#ddd|titleBGColor=#f7f7f7|bgColor=#fff\x7d\n"

/-- Panel opener for the response section. -/
def respPanelStart : GoStr :=
  gs "\x7bpanel:title=Response|collapsed=true|borderStyle=solid|borderColor=#ddd|titleBGColor=#f7f7f7|bgColor=#fff\x7d\n"

/-- Panel opener for the full-payload section. -/
def payloadPanelStart : GoStr :=
  gs "\x7bpanel:title=Full Payload Data|collapsed=true|borderStyle=solid|borderColor=#ddd|titleBGColor=#f7f7f7|bgColor=#fff\x7d\n"

/-- Panel closer shared by all sections (`sectionEnd` in the source). -/
def panelEnd : GoStr := gs "\x7bpanel\x7d\n\n"

/-- Opening code-fence line for JSON bodies. -/
def codeJsonOpen : GoStr := gs "\x7bcode:json\x7d\n"

/-- Closing code-fence line. -/
def codeCloseLine : GoStr := gs "\x7bcode\x7d\n"

/-- Newline followed by the closing code fence. -/
def nlCodeClose : GoStr := gs "\n\x7bcode\x7d\n"

/-- Truncation marker line appended to cut section content. -/
def truncLine : GoStr := gs "\n...[truncated]...\n"

/-- Heading line that starts the technical-details block. -/
def techDetailsHdr : GoStr := gs "h3. Technical Details\n\n"

/-- First line written into the overflow (truncated-content) document. -/
def overflowIntro : GoStr :=
  gs "Additional details that couldn" ++ [squote] ++ gs "t fit in the description:\n\n"

/-- Notice appended when the final-size guard hard-truncates the document. -/
def truncNotice : GoStr :=
  gs "\n\n[Content truncated due to Jira character limit. See comments for complete information.]"

/-- Notice appended when the overflow comment itself is hard-truncated. -/
def commentTruncNotice : GoStr :=
  gs "\n\n[Comment truncated due to Jira character limit]"

/-- Dashed note panel placed under an embedded screenshot. -/
def screenshotNote : GoStr :=
  gs "\x7bpanel:title=Note|borderStyle=dashed|borderColor=#ccc|titleBGColor=#f0f0f0|bgColor=#fafafa\x7d\nThis screenshot URL will expire in 7 days.\n\x7bpanel\x7d\n\n"

/-- Inputs to the description assembly of `CreateTicket`.  Fields of the
request that reach the assembly only through `fmt`/`encoding/json`
rendering are taken in already-rendered form; an empty list models a field
that is absent or empty (the source tests `ok && x != ""`).
`networkCallsStr` is `none` when the payload has no `failedNetworkCalls`
key (or it is nil); `headersJSON`/`responseJSON` are `none` when the
corresponding map is empty, otherwise the `json.MarshalIndent` rendering
(which cannot fail on data decoded from a JSON request, so the
marshal-error fallback branches of the source are unreachable here). -/
structure TicketInput where
  issue : GoStr
  descriptionField : GoStr
  userEmail : GoStr
  leadId : GoStr
  product : GoStr
  payloadUrl : GoStr
  reqURL : GoStr
  imageS3URL : GoStr
  timestampLine : GoStr
  networkCallsStr : Option GoStr
  headersJSON : Option GoStr
  responseJSON : Option GoStr
  payloadJSON : GoStr
deriving DecidableEq, Repr

/-- The user-information metadata block (`metadataSection` in the source). -/
def metadataSection (t : TicketInput) : GoStr :=
  (if t.userEmail ≠ [] then gs "* *User Email:* " ++ t.userEmail ++ gs "\n" else [])
  ++ (if t.leadId ≠ [] then gs "* *Lead ID:* " ++ t.leadId ++ gs "\n" else [])
  ++ (if t.product ≠ [] then gs "* *Product:* " ++ t.product ++ gs "\n" else [])
  ++ (if t.payloadUrl ≠ [] then gs "* *Page URL:* " ++ t.payloadUrl ++ gs "\n"
      else if t.reqURL ≠ [] then gs "* *Page URL:* " ++ t.reqURL ++ gs "\n" else [])

/-- The screenshot block: an image embed (with expiry note) for http URLs,
plain text otherwise, nothing for empty/None/null references. -/
def screenshotSection (t : TicketInput) : GoStr :=
  if t.imageS3URL ≠ [] ∧ t.imageS3URL ≠ gs "None" ∧ t.imageS3URL ≠ gs "null" then
    if (gs "http").isPrefixOf t.imageS3URL then
      gs "h3. Screenshot\n!" ++ t.imageS3URL ++ gs "|width=800!\n\n" ++ screenshotNote
    else
      gs "h3. Screenshot\n" ++ t.imageS3URL ++ gs "\n\n"
  else []

/-- The essential (never budget-truncated) content: summary, description,
metadata, screenshot and timestamp.  Its length is the `essentialLength`
of the source. -/
def essentialDoc (t : TicketInput) : GoStr :=
  gs "h2. Issue Summary\n" ++ t.issue ++ gs "\n\n"
  ++ (if t.descriptionField ≠ [] then
        gs "h3. Description\n" ++ t.descriptionField ++ gs "\n\n" else [])
  ++ (if metadataSection t ≠ [] then
        gs "h3. User Information\n" ++ metadataSection t ++ gs "\n\n" else [])
  ++ screenshotSection t
  ++ t.timestampLine

/-- The budget computed by `CreateTicket` for a given request. -/
def budgetOf (t : TicketInput) : Budget :=
  allocateBudget maxJiraDescLength ((essentialDoc t).length : Int)

/-- One rendered variable section: the text placed in the primary
document, the truncated flag, and the block pushed onto the overflow
document (empty when not truncated). -/
structure SectionResult where
  rendered : GoStr
  truncated : Bool
  overflowBlock : GoStr
deriving DecidableEq, Repr, Inhabited

/-- The failed-network-calls section renderer (string and marshalled
branches of the source produce the same shape from the rendered text
`nc`).  Truncation cuts at `limit` minus markup overhead minus 50 after
testing against overhead plus 20; `none` models the Go slice panic when
the cut position is negative. -/
def renderNetworkCalls (nc : GoStr) (limit : Int) : Option SectionResult :=
  if (nc.length : Int) > limit - ncPanelStart.length - panelEnd.length - 20 then
    match goSlice nc (limit - (ncPanelStart.length : Int) - panelEnd.length - 50) with
    | none => none
    | some cut =>
      some { rendered := ncPanelStart ++ gs "Network calls data truncated to fit Jira limit:\n"
              ++ codeJsonOpen ++ cut ++ truncLine ++ codeCloseLine ++ panelEnd
             truncated := true
             overflowBlock := gs "h3. Complete Network Calls\n"
              ++ (codeJsonOpen ++ nc ++ nlCodeClose) ++ gs "\n\n" }
  else
    some { rendered := ncPanelStart ++ (codeJsonOpen ++ nc ++ nlCodeClose) ++ panelEnd
           truncated := false
           overflowBlock := [] }

/-- The shared renderer of the headers / response / payload sections
(`json.MarshalIndent` success path of the source): test against `limit`
minus markup overhead minus 20, cut at overhead plus 30, append the
truncation marker, record the full content under `heading` in the
overflow document.  `none` models the Go slice panic when the cut
position is negative. -/
def renderJsonSection (panelStart heading J : GoStr) (limit : Int) : Option SectionResult :=
  if (J.length : Int) > limit - panelStart.length - panelEnd.length - 20 then
    match goSlice J (limit - (panelStart.length : Int) - panelEnd.length - 30) with
    | none => none
    | some cut =>
      some { rendered := panelStart ++ codeJsonOpen ++ cut ++ truncLine ++ nlCodeClose ++ panelEnd
             truncated := true
             overflowBlock := heading ++ (codeJsonOpen ++ J ++ nlCodeClose) ++ gs "\n\n" }
  else
    some { rendered := panelStart ++ (codeJsonOpen ++ J ++ nlCodeClose) ++ panelEnd
           truncated := false
           overflowBlock := [] }

/-- The network-calls section of a request: skipped (empty, untruncated)
when the payload has no `failedNetworkCalls` entry. -/
def networkCallsSection (t : TicketInput) : Option SectionResult :=
  match t.networkCallsStr with
  | none => some { rendered := [], truncated := false, overflowBlock := [] }
  | some nc => renderNetworkCalls nc (budgetOf t).networkCalls

/-- The request-headers section: placeholder text when the header map is
empty, rendered JSON otherwise. -/
def headersSection (t : TicketInput) : Option SectionResult :=
  match t.headersJSON with
  | none => some { rendered := hdrPanelStart ++ gs "No request headers available.\n" ++ panelEnd
                   truncated := false, overflowBlock := [] }
  | some J => renderJsonSection hdrPanelStart (gs "h3. Complete Request Headers\n") J
      (budgetOf t).headers

/-- The response section: placeholder text when the response map is
empty, rendered JSON otherwise. -/
def responseSection (t : TicketInput) : Option SectionResult :=
  match t.responseJSON with
  | none => some { rendered := respPanelStart ++ gs "No response data available.\n" ++ panelEnd
                   truncated := false, overflowBlock := [] }
  | some J => renderJsonSection respPanelStart (gs "h3. Complete Response\n") J
      (budgetOf t).response

/-- The raw-payload section; it is always rendered. -/
def payloadSection (t : TicketInput) : Option SectionResult :=
  renderJsonSection payloadPanelStart (gs "h3. Complete Payload\n") t.payloadJSON
    (budgetOf t).payload

/-- The final-size guard: when the assembled document exceeds the
ceiling, the complete pre-guard document is copied into the overflow
document under a "Full Original Description" heading and the primary
document becomes its first `32000 - 100` characters plus a fixed notice.
The Go slice `description[:31900]` is in range there because the length
exceeds 32000, so `List.take` models it exactly.  Returns (primary
document, overflow document, guard fired). -/
def finalSizeGuard (desc overflow : GoStr) : GoStr × GoStr × Bool :=
  if (desc.length : Int) > maxJiraDescLength then
    (desc.take 31900 ++ truncNotice,
     overflow ++ gs "h3. Full Original Description\n" ++ desc ++ gs "\n\n",
     true)
  else (desc, overflow, false)

/-- Outcome of the description assembly of `CreateTicket`: the final
primary document and overflow document, the per-section truncated flags,
the guard flag, and the intermediate document/overflow just before the
final-size guard ran. -/
structure BuildResult where
  description : GoStr
  overflow : GoStr
  ncTruncated : Bool
  headersTruncated : Bool
  responseTruncated : Bool
  payloadTruncated : Bool
  guardFired : Bool
  preGuard : GoStr
  overflowBeforeGuard : GoStr
deriving DecidableEq, Repr, Inhabited

/-- The `wasTruncated` flag of the source: set by any section truncation
or by the final-size guard. -/
def wasTruncated (r : BuildResult) : Bool :=
  r.ncTruncated || r.headersTruncated || r.responseTruncated || r.payloadTruncated || r.guardFired

/-- Assemble the pre-guard document (essential content, network-calls
section, technical-details heading, headers, response and payload
sections, in source order), the overflow document, and apply the
final-size guard. -/
def assembleResult (base : GoStr) (ncS hS rS pS : SectionResult) : BuildResult :=
  let preGuard := base ++ ncS.rendered ++ techDetailsHdr
    ++ hS.rendered ++ rS.rendered ++ pS.rendered
  let overflow0 := overflowIntro ++ ncS.overflowBlock ++ hS.overflowBlock
    ++ rS.overflowBlock ++ pS.overflowBlock
  { description := (finalSizeGuard preGuard overflow0).1
    overflow := (finalSizeGuard preGuard overflow0).2.1
    ncTruncated := ncS.truncated
    headersTruncated := hS.truncated
    responseTruncated := rS.truncated
    payloadTruncated := pS.truncated
    guardFired := (finalSizeGuard preGuard overflow0).2.2
    preGuard := preGuard
    overflowBeforeGuard := overflow0 }

/-- The description assembly of `CreateTicket`: essential content, then
the network-calls section, the technical-details heading, the headers,
response and payload sections, then the final-size guard.  `none` models
a Go slice panic inside a section renderer. -/
def CreateTicketDescription (t : TicketInput) : Option BuildResult :=
  match networkCallsSection t with
  | none => none
  | some ncS =>
    match headersSection t with
    | none => none
    | some hS =>
      match responseSection t with
      | none => none
      | some rS =>
        match payloadSection t with
        | none => none
        | some pS => some (assembleResult (essentialDoc t) ncS hS rS pS)

/-- The response record returned on success (`models.TicketResponse`). -/
structure TicketResponse where
  ticketID : GoStr
  status : GoStr
  assignedTo : GoStr
  jiraLink : GoStr
deriving DecidableEq, Repr

/-- Outcome of the external Jira issue-creation call. -/
inductive SubmitOutcome where
  | ok (key : GoStr)
  | fail (msg : GoStr)
deriving DecidableEq, Repr

/-- Outcomes of the external calls made by `CreateTicket` after assembly:
the submission result, whether the comment attachment fails, whether a
MongoDB service is configured, and whether its save fails. -/
structure ExternalOutcomes where
  submit : SubmitOutcome
  commentFails : Bool
  mongoConfigured : Bool
  mongoFails : Bool
deriving DecidableEq, Repr

/-- Best-effort external actions performed after a successful
submission; a failed action is logged, never surfaced. -/
inductive ExtAction where
  | addComment (body : GoStr) (failed : Bool)
  | saveMongo (failed : Bool)
deriving DecidableEq, Repr

/-- The comment body attached for truncated content: the overflow
document, itself hard-truncated against the same ceiling. -/
def commentBodyOf (r : BuildResult) : GoStr :=
  if (r.overflow.length : Int) > maxJiraDescLength then
    r.overflow.take 31900 ++ commentTruncNotice
  else r.overflow

/-- The success record built by `CreateTicket` from the new issue key,
the chosen assignee and the Jira host. -/
def respOf (key assignee host : GoStr) : TicketResponse :=
  { ticketID := key
    status := gs "created"
    assignedTo := assignee
    jiraLink := gs "https://" ++ host ++ gs "/browse/" ++ key }

/-- `CreateTicket` after input rendering: assemble the description
(`none` models the panic), submit (submission failure is returned as the
request error), then perform the best-effort comment attachment (only if
content was truncated) and MongoDB save; their failures never alter the
returned result. -/
def CreateTicket (t : TicketInput) (assignee host : GoStr) (ext : ExternalOutcomes) :
    Option (Except GoStr (TicketResponse × List ExtAction)) :=
  match CreateTicketDescription t with
  | none => none
  | some r =>
    match ext.submit with
    | SubmitOutcome.fail m =>
      some (Except.error (gs "failed to create Jira ticket: " ++ m))
    | SubmitOutcome.ok key =>
      let acts :=
        (if wasTruncated r then [ExtAction.addComment (commentBodyOf r) ext.commentFails] else [])
        ++ (if ext.mongoConfigured then [ExtAction.saveMongo ext.mongoFails] else [])
      some (Except.ok (respOf key assignee host, acts))

/-- `getRandomTeamMember`: empty string for an empty roster, otherwise
the entry at the index drawn by `rand.Intn(len(team))` (whose contract
guarantees an in-range index, so `getD` models the Go indexing). -/
def getRandomTeamMember (supportTeam : List GoStr) (randIntn : Nat → Nat) : GoStr :=
  if supportTeam.length = 0 then []
  else supportTeam.getD (randIntn supportTeam.length) []

/-- Request data of one failed network call (`models.NetworkCall`); the
untyped body is kept as its JSON text. -/
structure NetworkCallRequestData where
  method : GoStr
  url : GoStr
  headers : List (GoStr × GoStr)
  bodyJSON : GoStr
deriving DecidableEq, Repr

/-- One failed network call (`models.NetworkCall`). -/
structure NetworkCall where
  requestData : NetworkCallRequestData
  responseStatus : Int
  responseHeaders : GoStr
  responseBody : GoStr
  pageURL : GoStr
  timestamp : GoStr
deriving DecidableEq, Repr

/-- ASCII fragment of the Go `unicode.IsSpace` predicate (the inputs of interest are
ASCII JSON texts). -/
def isGoSpace (c : Char) : Bool :=
  c = ' ' ∨ c = '\t' ∨ c = '\n' ∨ c = '\r' ∨ c = '\x0b' ∨ c = '\x0c'

/-- `strings.TrimSpace`. -/
def trimSpace (s : GoStr) : GoStr :=
  ((s.dropWhile isGoSpace).reverse.dropWhile isGoSpace).reverse

/-- `strings.ReplaceAll` specialised to a two-character pattern replaced
by one character: leftmost, non-overlapping. -/
def replace2 (a b r : Char) : GoStr → GoStr
  | c :: d :: rest =>
    if c = a ∧ d = b then r :: replace2 a b r rest
    else c :: replace2 a b r (d :: rest)
  | l => l

/-- The unescaping pass of `GetNetworkCalls`: `ReplaceAll(s, bslash
dquote, dquote)` then `ReplaceAll(s, bslash bslash, bslash)`. -/
def unescapeGo (s : GoStr) : GoStr :=
  replace2 bslash bslash bslash (replace2 bslash dquote dquote s)

/-- Does `s` start with character `c` (`strings.HasPrefix` with a
one-character pattern). -/
def headIs (c : Char) (s : GoStr) : Bool := s.head? = some c

/-- Does `s` end with character `c` (`strings.HasSuffix` with a
one-character pattern). -/
def lastIs (c : Char) (s : GoStr) : Bool := s.getLast? = some c

/-- The quote-stripping condition of `GetNetworkCalls`: surrounded by
double quotes or by single quotes. -/
def quoteStripCond (input : GoStr) : Bool :=
  (headIs dquote input && lastIs dquote input) || (headIs squote input && lastIs squote input)

/-- Outcome of one `json.Unmarshal(data, &calls)` attempt on the shared
`calls` slice.  Success writes the decoded list.  A failing attempt may
still have rewritten the destination — on a syntactically valid array
with mismatched element types, Go "completes the unmarshaling as best it
can", leaving zero-valued placeholder elements behind — or may leave the
destination untouched (syntax error, or a non-array top-level value).
The written value is taken to depend on the input text alone. -/
inductive DecodeCallsOutcome where
  | ok (calls : List NetworkCall)
  | failWrite (calls : List NetworkCall)
  | failKeep
deriving DecidableEq, Repr

/-- Did the unmarshal attempt succeed (`err == nil`). -/
def isDecodeOk : DecodeCallsOutcome → Bool
  | DecodeCallsOutcome.ok _ => true
  | _ => false

/-- Contents of the shared `calls` slice after an unmarshal attempt,
given its previous contents. -/
def decodeWrite (prev : List NetworkCall) : DecodeCallsOutcome → List NetworkCall
  | DecodeCallsOutcome.ok c => c
  | DecodeCallsOutcome.failWrite c => c
  | DecodeCallsOutcome.failKeep => prev

/-- The trimmed and (when surrounded by matching quotes) quote-stripped
input handed to the unescaping pass; `none` models the Go slice panic of
`input[1:len(input)-1]` on a one-character quoted input. -/
def strippedInput (s : GoStr) : Option GoStr :=
  if quoteStripCond (trimSpace s) then
    goSliceRange (trimSpace s) 1 (((trimSpace s).length : Int) - 1)
  else some (trimSpace s)

/-- `GetNetworkCalls` from `internal/models/ticket.go`, parameterised by
the two uses of `json.Unmarshal` (into the shared `[]NetworkCall`
destination and into `string`).  The `calls` slice starts empty and is
threaded through the unmarshal attempts exactly as in the source, so a
failing attempt can leave partially decoded content that the final
soft-failure return exposes.  Returns the final slice and a flag that is
true exactly when the non-nil error is returned. -/
def GetNetworkCalls (decodeCalls : GoStr → DecodeCallsOutcome)
    (decodeString : GoStr → Option GoStr) (failedNetworkCalls : GoStr) :
    Option (List NetworkCall × Bool) :=
  if failedNetworkCalls = [] then some ([], false)
  else
    match decodeCalls failedNetworkCalls with
    | DecodeCallsOutcome.ok calls => some (calls, false)
    | o1 =>
      match strippedInput failedNetworkCalls with
      | none => none
      | some input1 =>
        match decodeCalls (unescapeGo input1) with
        | DecodeCallsOutcome.ok calls => some (calls, false)
        | o2 =>
          match decodeString (unescapeGo input1) with
          | some decoded =>
            match decodeCalls decoded with
            | DecodeCallsOutcome.ok calls => some (calls, false)
            | o3 => some (decodeWrite (decodeWrite (decodeWrite [] o1) o2) o3, true)
          | none => some (decodeWrite (decodeWrite [] o1) o2, true)

/-- The slice returned by the all-strategies-fail path: whatever the
failed unmarshal attempts left in the shared destination. -/
def allFailResult (decodeCalls : GoStr → DecodeCallsOutcome)
    (decodeString : GoStr → Option GoStr) (s input1 : GoStr) : List NetworkCall :=
  match decodeString (unescapeGo input1) with
  | some decoded =>
    decodeWrite (decodeWrite (decodeWrite [] (decodeCalls s))
      (decodeCalls (unescapeGo input1))) (decodeCalls decoded)
  | none => decodeWrite (decodeWrite [] (decodeCalls s)) (decodeCalls (unescapeGo input1))

/-- The quote-wrapped/escaped variant of a JSON text: every double quote
and backslash escaped, the whole surrounded by double quotes (the form
produced by a client layer that quotes form data). -/
def escapeForQuoting : GoStr → GoStr
  | [] => []
  | c :: rest =>
    (if c = dquote ∨ c = bslash then [bslash, c] else [c]) ++ escapeForQuoting rest

/-- Double every backslash, leaving all other characters alone. -/
def doubleBackslashes : GoStr → GoStr
  | [] => []
  | c :: rest =>
    (if c = bslash then [bslash, bslash] else [c]) ++ doubleBackslashes rest

/-- Quote-wrap a JSON text. -/
def quoteWrap (s : GoStr) : GoStr := dquote :: (escapeForQuoting s ++ [dquote])

/-- The HTTP-level outcome of the report-issue handler, restricted to
what happens after binding and validation succeed. -/
inductive ReportOutcome where
  | created (resp : TicketResponse)
  | internalError (msg : GoStr)
deriving DecidableEq, Repr

/-- The network-calls handling of `ReportIssue`
(`internal/handlers/report.go`): a parse soft-failure triggers a generic
JSON reparse attempt, but every branch proceeds to `CreateTicket`
(whose outcome is taken as an input here) and only a `CreateTicket`
error becomes an error response; `none` models the parser panic case. -/
def ReportIssue (decodeCalls : GoStr → DecodeCallsOutcome)
    (decodeString : GoStr → Option GoStr) (genericParseOk : Bool)
    (failedNetworkCalls : GoStr) (createOutcome : Except GoStr TicketResponse) :
    Option ReportOutcome :=
  match GetNetworkCalls decodeCalls decodeString failedNetworkCalls with
  | none => none
  | some (_, softFail) =>
    if softFail then
      if genericParseOk then
        match createOutcome with
        | Except.error m => some (ReportOutcome.internalError m)
        | Except.ok resp => some (ReportOutcome.created resp)
      else
        match createOutcome with
        | Except.error m => some (ReportOutcome.internalError m)
        | Except.ok resp => some (ReportOutcome.created resp)
    else
      match createOutcome with
      | Except.error m => some (ReportOutcome.internalError m)
      | Except.ok resp => some (ReportOutcome.created resp)

/-- A minimal request: one-character issue, no optional fields, empty
header/response maps, empty-object payload rendering. -/
def smallReq : TicketInput :=
  { issue := gs "x", descriptionField := [], userEmail := [], leadId := []
    product := [], payloadUrl := [], reqURL := [], imageS3URL := []
    timestampLine := gs "T\n", networkCallsStr := none, headersJSON := none
    responseJSON := none, payloadJSON := gs "\x7b\x7d" }

/-- The assembly result of the minimal request. -/
def smallRes : BuildResult := (CreateTicketDescription smallReq).getD default

/-- The minimal request with a 33000-character issue summary, making the
essential content exceed the ceiling. -/
def c4req : TicketInput := { smallReq with issue := List.replicate 33000 'a' }

/-- A document one character over the ceiling. -/
def bigDoc : GoStr := List.replicate 32001 'a'

/-- A concrete truncated headers section: 30 characters of content
against an allocation leaving a usable budget of 29. -/
def c3probe : SectionResult :=
  (renderJsonSection hdrPanelStart (gs "h3. Complete Request Headers\n")
    (List.replicate 30 'x')
    ((hdrPanelStart.length : Int) + (panelEnd.length : Int) + 49)).getD default

/-- A sample parsed network call. -/
def sampleCall : NetworkCall :=
  { requestData := { method := gs "GET", url := gs "https://api.example.com/x"
                     headers := [], bodyJSON := gs "null" }
    responseStatus := 500, responseHeaders := [], responseBody := []
    pageURL := gs "https://example.com/p", timestamp := gs "2024-01-01T00:00:00Z" }

/-- A stand-in for the text of a well-formed JSON array of network calls. -/
def sampleArrayText : GoStr := gs "[\x7bsample\x7d]"

/-- A `NetworkCall` with every field zero-valued: what Go leaves behind
for an array element it could not decode. -/
def zeroNetworkCall : NetworkCall :=
  { requestData := { method := [], url := [], headers := [], bodyJSON := [] }
    responseStatus := 0, responseHeaders := [], responseBody := []
    pageURL := [], timestamp := [] }

/-- A syntactically valid JSON array whose element type mismatches
`NetworkCall`: Go decodes it "as best it can", writing one zero-valued
element and returning an error. -/
def typeMismatchText : GoStr := gs "[1]"

/-- A table decoder standing in for `json.Unmarshal` into the shared
`[]NetworkCall` destination: succeeds on `sampleArrayText`, partially
fills the destination on `typeMismatchText` (the documented Go behaviour
on a type-mismatched but valid array), and fails without writing on
everything else. -/
def decSample (s : GoStr) : DecodeCallsOutcome :=
  if s = sampleArrayText then DecodeCallsOutcome.ok [sampleCall]
  else if s = typeMismatchText then DecodeCallsOutcome.failWrite [zeroNetworkCall]
  else DecodeCallsOutcome.failKeep

/-- A stand-in for the body of a double-JSON-encoded variant whose decoded
string is `sampleArrayText`. -/
def ddBody : GoStr := gs "DD"

/-- A table decoder standing in for `json.Unmarshal` into `string`:
succeeds exactly on `ddBody`. -/
def decStrSample (s : GoStr) : Option GoStr :=
  if s = ddBody then some sampleArrayText else none

/-- External outcomes: submission succeeds, nothing else configured. -/
def extOkSmall : ExternalOutcomes :=
  { submit := SubmitOutcome.ok (gs "PROJ-1"), commentFails := false
    mongoConfigured := false, mongoFails := false }

/-- External outcomes: submission fails. -/
def extFailSmall : ExternalOutcomes :=
  { submit := SubmitOutcome.fail (gs "boom"), commentFails := false
    mongoConfigured := false, mongoFails := false }

/-- A three-member support roster. -/
def sampleTeam : List GoStr := [gs "alice", gs "bob", gs "carol"]

theorem guard_fst_length_le (d o : GoStr) : (finalSizeGuard d o).1.length ≤ 32000 := by
  unfold finalSizeGuard
  by_cases h : (d.length : Int) > maxJiraDescLength
  · rw [if_pos h]
    have h1 : (List.take 31900 d).length ≤ 31900 := by
      simp [List.length_take]
    have h2 : truncNotice.length ≤ 100 := by decide
    simp only [List.length_append]
    omega
  · rw [if_neg h]
    have : (d.length : Int) ≤ maxJiraDescLength := not_lt.mp h
    have : (d.length : Int) ≤ 32000 := this
    exact_mod_cast this

theorem build_some_inv (t : TicketInput) (r : BuildResult)
    (h : CreateTicketDescription t = some r) :
    r.description = (finalSizeGuard r.preGuard r.overflowBeforeGuard).1
    ∧ r.overflow = (finalSizeGuard r.preGuard r.overflowBeforeGuard).2.1
    ∧ r.guardFired = (finalSizeGuard r.preGuard r.overflowBeforeGuard).2.2 := by
  unfold CreateTicketDescription at h
  cases hnc : networkCallsSection t with
  | none => rw [hnc] at h; exact Option.noConfusion h
  | some ncS =>
    rw [hnc] at h
    cases hh : headersSection t with
    | none => rw [hh] at h; exact Option.noConfusion h
    | some hS =>
      rw [hh] at h
      cases hr : responseSection t with
      | none => rw [hr] at h; exact Option.noConfusion h
      | some rS =>
        rw [hr] at h
        cases hp : payloadSection t with
        | none => rw [hp] at h; exact Option.noConfusion h
        | some pS =>
          rw [hp] at h
          obtain rfl := Option.some_inj.mp h
          refine ⟨?_, ?_, ?_⟩ <;> simp only [assembleResult]

/-- C1: for every request on which the assembly completes, the primary
description document produced by `CreateTicket` (fixed sections plus the
four rendered variable sections, after the final-size guard) has length
at most the 32000-character ceiling. -/
theorem c1_description_le_ceiling (t : TicketInput) (r : BuildResult)
    (h : CreateTicketDescription t = some r) : r.description.length ≤ 32000 := by
  obtain ⟨hd, -, -⟩ := build_some_inv t r h
  rw [hd]
  exact guard_fst_length_le _ _

set_option maxRecDepth 40000 in
theorem c1_description_le_ceiling_witness :
    CreateTicketDescription smallReq = some smallRes
    ∧ smallRes.description.length ≤ 32000 :=
  ⟨by decide, c1_description_le_ceiling smallReq smallRes (by decide)⟩

/-- C2: the four variable-section allocations sum exactly to
`remaining = ceiling - essentialLength` for every pair (the payload
allocation absorbs the division remainder by construction), and the
scenario ceiling 32000, essential length 30000 yields allocations
1000/400/400/200. -/
theorem c2_budget_allocations_sum :
    (∀ ceiling essentialLength : Int,
      (allocateBudget ceiling essentialLength).networkCalls
      + (allocateBudget ceiling essentialLength).headers
      + (allocateBudget ceiling essentialLength).response
      + (allocateBudget ceiling essentialLength).payload = ceiling - essentialLength)
    ∧ allocateBudget 32000 30000 =
        { networkCalls := 1000, headers := 400, response := 400, payload := 200 } := by
  constructor
  · intro c e
    simp only [allocateBudget]
    ring
  · decide

/-- C5: when the final-size guard fires (the assembled document exceeds
the ceiling) the overflow document receives the complete pre-guard
document verbatim under the "Full Original Description" heading, and the
primary document becomes its first `ceiling - 100` characters plus a
fixed notice; and inside `CreateTicket` the final document and overflow
are exactly the guard output, the guard firing exactly when the
pre-guard document exceeds the ceiling. -/
theorem c5_final_guard_overflow :
    (∀ d o : GoStr, maxJiraDescLength < (d.length : Int) →
      finalSizeGuard d o =
        (d.take 31900 ++ truncNotice,
         o ++ gs "h3. Full Original Description\n" ++ d ++ gs "\n\n",
         true))
    ∧ (∀ t r, CreateTicketDescription t = some r →
        r.description = (finalSizeGuard r.preGuard r.overflowBeforeGuard).1
        ∧ r.overflow = (finalSizeGuard r.preGuard r.overflowBeforeGuard).2.1
        ∧ (r.guardFired = true ↔ maxJiraDescLength < (r.preGuard.length : Int))) := by
  constructor
  · intro d o h
    unfold finalSizeGuard
    rw [if_pos h]
  · intro t r h
    obtain ⟨hd, ho, hg⟩ := build_some_inv t r h
    refine ⟨hd, ho, ?_⟩
    rw [hg]
    unfold finalSizeGuard
    by_cases hc : (r.preGuard.length : Int) > maxJiraDescLength
    · rw [if_pos hc]
      simpa using hc
    · rw [if_neg hc]
      simpa using hc

set_option maxRecDepth 40000 in
theorem c5_final_guard_overflow_witness :
    finalSizeGuard bigDoc [] =
      (bigDoc.take 31900 ++ truncNotice,
       [] ++ gs "h3. Full Original Description\n" ++ bigDoc ++ gs "\n\n",
       true)
    ∧ smallRes.description = (finalSizeGuard smallRes.preGuard smallRes.overflowBeforeGuard).1 :=
  ⟨c5_final_guard_overflow.1 bigDoc []
      (by norm_num [bigDoc, maxJiraDescLength]),
   (c5_final_guard_overflow.2 smallReq smallRes (by decide)).1⟩

set_option maxRecDepth 40000 in
/-- C3 counterexample: a truncated headers section (30 characters of
rendered content against a usable allocation of 29) whose block placed in
the primary document does not end with the truncation marker — the
closing code-fence and panel markup follow the marker. -/
theorem c3_cex_marker_not_section_end :
    ((List.replicate 30 'x').length : Int)
      > ((hdrPanelStart.length : Int) + (panelEnd.length : Int) + 49)
        - hdrPanelStart.length - panelEnd.length - 20
    ∧ c3probe.truncated = true
    ∧ List.isSuffixOf (gs "...[truncated]...") c3probe.rendered = false := by
  refine ⟨by decide, by decide, by decide⟩

/-- C3 (amended): for every variable section, whenever the rendered
content length exceeds the usable allocation (allocation minus the
panel-markup overhead minus 20) and the truncation cut (allocation minus
overhead minus 30, or minus 50 for network calls) is non-negative, the
section placed in the primary document is the cut content followed by the
truncation marker and the fixed closing markup, and the overflow document
receives a block headed with the section name whose content equals the
full rendered content before truncation. -/
theorem c3_truncation_overflow_amended :
    (∀ panelStart heading J : GoStr, ∀ limit : Int,
      (J.length : Int) > limit - panelStart.length - panelEnd.length - 20 →
      0 ≤ limit - (panelStart.length : Int) - panelEnd.length - 30 →
      renderJsonSection panelStart heading J limit = some
        { rendered := panelStart ++ codeJsonOpen
            ++ J.take (limit - (panelStart.length : Int) - panelEnd.length - 30).toNat
            ++ truncLine ++ nlCodeClose ++ panelEnd
          truncated := true
          overflowBlock := heading ++ (codeJsonOpen ++ J ++ nlCodeClose) ++ gs "\n\n" })
    ∧ (∀ nc : GoStr, ∀ limit : Int,
      (nc.length : Int) > limit - ncPanelStart.length - panelEnd.length - 20 →
      0 ≤ limit - (ncPanelStart.length : Int) - panelEnd.length - 50 →
      renderNetworkCalls nc limit = some
        { rendered := ncPanelStart ++ gs "Network calls data truncated to fit Jira limit:\n"
            ++ codeJsonOpen
            ++ nc.take (limit - (ncPanelStart.length : Int) - panelEnd.length - 50).toNat
            ++ truncLine ++ codeCloseLine ++ panelEnd
          truncated := true
          overflowBlock := gs "h3. Complete Network Calls\n"
            ++ (codeJsonOpen ++ nc ++ nlCodeClose) ++ gs "\n\n" }) := by
  constructor
  · intro ps hd J limit h1 h2
    have hk : goSlice J (limit - (ps.length : Int) - panelEnd.length - 30)
        = some (J.take (limit - (ps.length : Int) - panelEnd.length - 30).toNat) := by
      unfold goSlice
      rw [if_pos]
      exact ⟨h2, by omega⟩
    unfold renderJsonSection
    rw [if_pos h1, hk]
  · intro nc limit h1 h2
    have hk : goSlice nc (limit - (ncPanelStart.length : Int) - panelEnd.length - 50)
        = some (nc.take (limit - (ncPanelStart.length : Int) - panelEnd.length - 50).toNat) := by
      unfold goSlice
      rw [if_pos]
      exact ⟨h2, by omega⟩
    unfold renderNetworkCalls
    rw [if_pos h1, hk]

set_option maxRecDepth 40000 in
theorem c3_truncation_overflow_amended_witness :
    (renderJsonSection hdrPanelStart (gs "h3. Complete Request Headers\n")
      (List.replicate 200 'x')
      ((hdrPanelStart.length : Int) + (panelEnd.length : Int) + 100)).isSome = true
    ∧ (renderNetworkCalls (List.replicate 200 'n')
      ((ncPanelStart.length : Int) + (panelEnd.length : Int) + 100)).isSome = true := by
  constructor
  · rw [c3_truncation_overflow_amended.1 hdrPanelStart (gs "h3. Complete Request Headers\n")
      (List.replicate 200 'x')
      ((hdrPanelStart.length : Int) + (panelEnd.length : Int) + 100)
      (by decide) (by decide)]
    rfl
  · rw [c3_truncation_overflow_amended.2 (List.replicate 200 'n')
      ((ncPanelStart.length : Int) + (panelEnd.length : Int) + 100)
      (by decide) (by decide)]
    rfl

theorem build_none_of_payload_none (t : TicketInput)
    (hp : payloadSection t = none) : CreateTicketDescription t = none := by
  unfold CreateTicketDescription
  cases hnc : networkCallsSection t with
  | none => rfl
  | some ncS =>
    cases hh : headersSection t with
    | none => rfl
    | some hS =>
      cases hr : responseSection t with
      | none => rfl
      | some rS => rw [hp]

set_option maxRecDepth 40000 in
/-- C4: with a 33000-character issue summary the essential content
exceeds the ceiling; `remainingChars` is not clamped and goes negative,
the payload allocation is negative, and the always-rendered payload
section reaches a Go slice with a negative bound, so the assembly does
not complete (a runtime panic in the source, `none` here) instead of
completing with zero allocations as the specification describes. -/
theorem c4_negative_budget_failure :
    CreateTicketDescription c4req = none
    ∧ maxJiraDescLength - ((essentialDoc c4req).length : Int) < 0
    ∧ (budgetOf c4req).payload < 0 := by
  have hm : metadataSection c4req = [] := by decide
  have hs : screenshotSection c4req = [] := by decide
  have h18 : (gs "h2. Issue Summary\n").length = 18 := by decide
  have h2 : (gs "\n\n").length = 2 := by decide
  have hT : (gs "T\n").length = 2 := by decide
  have hlen : (essentialDoc c4req).length = 33022 := by
    unfold essentialDoc
    rw [hm, hs]
    norm_num [c4req, smallReq, List.length_append, h18, h2, hT]
  have hcast : ((essentialDoc c4req).length : Int) = 33022 := by
    rw [hlen]
    norm_num
  have hb : (budgetOf c4req).payload = -103 := by
    unfold budgetOf
    rw [hcast]
    decide
  have hp : payloadSection c4req = none := by
    unfold payloadSection
    rw [hb]
    decide
  refine ⟨build_none_of_payload_none c4req hp, ?_, ?_⟩
  · rw [hcast]
    decide
  · rw [hb]
    decide

theorem replace2_cons₂ (a b r c d : Char) (l : GoStr) :
    replace2 a b r (c :: d :: l)
      = if c = a ∧ d = b then r :: replace2 a b r l
        else c :: replace2 a b r (d :: l) := rfl

theorem replace2_cons_no (a b r c : Char) (l : GoStr)
    (h : ¬ (c = a ∧ l.head? = some b)) :
    replace2 a b r (c :: l) = c :: replace2 a b r l := by
  cases l with
  | nil => rfl
  | cons d tl =>
    have h' : ¬ (c = a ∧ d = b) := by simpa using h
    rw [replace2_cons₂, if_neg h']

theorem escape_head_ne_dquote (s : GoStr) :
    ¬ (escapeForQuoting s).head? = some dquote := by
  cases s with
  | nil => simp [escapeForQuoting]
  | cons c r =>
    by_cases hc : c = dquote ∨ c = bslash
    · simp only [escapeForQuoting, if_pos hc, List.cons_append, List.head?_cons]
      intro h
      exact absurd (Option.some_inj.mp h) (by decide)
    · simp only [escapeForQuoting, if_neg hc, List.singleton_append, List.head?_cons]
      intro h
      exact hc (Or.inl (Option.some_inj.mp h))

theorem rep_bq_escape (s : GoStr) :
    replace2 bslash dquote dquote (escapeForQuoting s) = doubleBackslashes s := by
  induction s with
  | nil => rfl
  | cons c r ih =>
    by_cases hq : c = dquote
    · subst hq
      have he : escapeForQuoting (dquote :: r)
          = bslash :: dquote :: escapeForQuoting r := by
        simp [escapeForQuoting]
      have hd : doubleBackslashes (dquote :: r) = dquote :: doubleBackslashes r := by
        simp only [doubleBackslashes]
        rw [if_neg (by decide)]
        rfl
      rw [he, replace2_cons₂, if_pos ⟨rfl, rfl⟩, ih, hd]
    · by_cases hb : c = bslash
      · subst hb
        have he : escapeForQuoting (bslash :: r)
            = bslash :: bslash :: escapeForQuoting r := by
          simp [escapeForQuoting]
        have hd : doubleBackslashes (bslash :: r)
            = bslash :: bslash :: doubleBackslashes r := by
          simp [doubleBackslashes]
        rw [he, replace2_cons₂, if_neg (by decide)]
        rw [replace2_cons_no bslash dquote dquote bslash (escapeForQuoting r)
          (fun h => escape_head_ne_dquote r h.2)]
        rw [ih, hd]
      · have he : escapeForQuoting (c :: r) = c :: escapeForQuoting r := by
          simp [escapeForQuoting, hq, hb]
        have hd : doubleBackslashes (c :: r) = c :: doubleBackslashes r := by
          simp [doubleBackslashes, hb]
        rw [he, replace2_cons_no bslash dquote dquote c _ (fun h => hb h.1), ih, hd]

theorem rep_bb_dbl (s : GoStr) :
    replace2 bslash bslash bslash (doubleBackslashes s) = s := by
  induction s with
  | nil => rfl
  | cons c r ih =>
    by_cases hb : c = bslash
    · subst hb
      have hd : doubleBackslashes (bslash :: r)
          = bslash :: bslash :: doubleBackslashes r := by
        simp [doubleBackslashes]
      rw [hd, replace2_cons₂, if_pos ⟨rfl, rfl⟩, ih]
    · have hd : doubleBackslashes (c :: r) = c :: doubleBackslashes r := by
        simp [doubleBackslashes, hb]
      rw [hd, replace2_cons_no bslash bslash bslash c _ (fun h => hb h.1), ih]

theorem unescape_escape (s : GoStr) : unescapeGo (escapeForQuoting s) = s := by
  unfold unescapeGo
  rw [rep_bq_escape, rep_bb_dbl]

theorem dropWhile_of_head (l : GoStr)
    (h : ∀ c, l.head? = some c → isGoSpace c = false) :
    l.dropWhile isGoSpace = l := by
  cases l with
  | nil => rfl
  | cons c tl =>
    have hc := h c rfl
    simp [List.dropWhile_cons, hc]

theorem trimSpace_of_ends (s : GoStr)
    (h1 : ∀ c, s.head? = some c → isGoSpace c = false)
    (h2 : ∀ c, s.getLast? = some c → isGoSpace c = false) :
    trimSpace s = s := by
  unfold trimSpace
  rw [dropWhile_of_head s h1]
  rw [dropWhile_of_head s.reverse (by
    intro c hc
    rw [List.head?_reverse] at hc
    exact h2 c hc)]
  exact List.reverse_reverse s

theorem quoted_getLast (body : GoStr) :
    (dquote :: (body ++ [dquote])).getLast? = some dquote := by
  rw [show dquote :: (body ++ [dquote]) = (dquote :: body) ++ [dquote] from rfl]
  exact List.getLast?_concat _

theorem trim_quoted (body : GoStr) :
    trimSpace (dquote :: (body ++ [dquote])) = dquote :: (body ++ [dquote]) := by
  apply trimSpace_of_ends
  · intro c hc
    obtain rfl := Option.some_inj.mp hc
    decide
  · intro c hc
    rw [quoted_getLast] at hc
    obtain rfl := Option.some_inj.mp hc.symm
    decide

theorem strip_quoted (body : GoStr) :
    goSliceRange (dquote :: (body ++ [dquote])) 1
      (((dquote :: (body ++ [dquote])).length : Int) - 1) = some body := by
  have hl : (dquote :: (body ++ [dquote])).length = body.length + 2 := by simp
  unfold goSliceRange
  rw [if_pos]
  · have hd : (dquote :: (body ++ [dquote])).drop (1 : Int).toNat = body ++ [dquote] := rfl
    rw [hd, hl]
    have hn : ((((body.length + 2 : Nat) : Int) - 1) - 1).toNat = body.length := by
      push_cast
      omega
    rw [hn, List.take_left]
  · rw [hl]
    refine ⟨by norm_num, by push_cast; omega, by push_cast; omega⟩

theorem quoteStripCond_quoted (body : GoStr) :
    quoteStripCond (dquote :: (body ++ [dquote])) = true := by
  have h1 : headIs dquote (dquote :: (body ++ [dquote])) = true := by
    simp [headIs]
  have h2 : lastIs dquote (dquote :: (body ++ [dquote])) = true := by
    simp [lastIs, quoted_getLast]
  simp [quoteStripCond, h1, h2]

theorem strippedInput_quoted (body : GoStr) :
    strippedInput (dquote :: (body ++ [dquote])) = some body := by
  unfold strippedInput
  rw [trim_quoted, quoteStripCond_quoted, if_pos rfl, strip_quoted]

theorem getNetworkCalls_fallback (decodeCalls : GoStr → DecodeCallsOutcome)
    (decodeString : GoStr → Option GoStr) (s input1 : GoStr)
    (hne : s ≠ []) (h1 : isDecodeOk (decodeCalls s) = false)
    (hstrip : strippedInput s = some input1) :
    GetNetworkCalls decodeCalls decodeString s =
      match decodeCalls (unescapeGo input1) with
      | DecodeCallsOutcome.ok calls => some (calls, false)
      | o2 =>
        match decodeString (unescapeGo input1) with
        | some decoded =>
          match decodeCalls decoded with
          | DecodeCallsOutcome.ok calls => some (calls, false)
          | o3 => some (decodeWrite (decodeWrite (decodeWrite [] (decodeCalls s)) o2) o3, true)
        | none => some (decodeWrite (decodeWrite [] (decodeCalls s)) o2, true) := by
  unfold GetNetworkCalls
  rw [if_neg hne]
  cases ho : decodeCalls s with
  | ok c =>
    rw [ho] at h1
    simp [isDecodeOk] at h1
  | failWrite c => simp only [hstrip]
  | failKeep => simp only [hstrip]

set_option maxRecDepth 8000 in
/-- C6 counterexample: on the syntactically valid but type-mismatched
array text "[1]" every strategy fails, yet the returned list is not
empty — `json.Unmarshal` decodes the array "as best it can", leaving one
zero-valued `NetworkCall` in the shared destination that the final
`return calls, err` exposes, refuting the claimed "yields an empty
list". -/
theorem c6_cex_partial_fill_nonempty :
    GetNetworkCalls decSample decStrSample typeMismatchText
      = some ([zeroNetworkCall], true)
    ∧ ([zeroNetworkCall] : List NetworkCall) ≠ ([] : List NetworkCall) := by
  refine ⟨by decide, by decide⟩

/-- C6 (amended): the parse cascade of `GetNetworkCalls`, with
`json.Unmarshal` abstracted as decoder parameters.  For a well-formed
array text `j` (`decodeCalls j` succeeds with `calls`): the plain text
parses to `calls` at the first strategy; the quote-wrapped/escaped
variant (on which the direct array decode fails) parses to the same
`calls` after quote stripping and unescaping; a double-encoded variant
(quoted body on which the unescaped form still fails as an array but
decodes as a JSON string whose content is `j`) parses to the same
`calls` through the third strategy.  When every strategy fails, the
result carries the soft-failure flag and whatever slice the failed
unmarshal attempts left in the shared destination — the empty list
whenever no attempt wrote to it — and the report handler still proceeds
to ticket creation, never mapping the parse failure to an error
response. -/
theorem c6_network_call_parser_cascade_amended :
    ∀ (decodeCalls : GoStr → DecodeCallsOutcome)
      (decodeString : GoStr → Option GoStr) (j : GoStr) (calls : List NetworkCall),
      j ≠ [] → decodeCalls j = DecodeCallsOutcome.ok calls →
      (GetNetworkCalls decodeCalls decodeString j = some (calls, false))
      ∧ (isDecodeOk (decodeCalls (quoteWrap j)) = false →
          GetNetworkCalls decodeCalls decodeString (quoteWrap j) = some (calls, false))
      ∧ (∀ body : GoStr,
          isDecodeOk (decodeCalls (dquote :: (body ++ [dquote]))) = false →
          isDecodeOk (decodeCalls (unescapeGo body)) = false →
          decodeString (unescapeGo body) = some j →
          GetNetworkCalls decodeCalls decodeString (dquote :: (body ++ [dquote]))
            = some (calls, false))
      ∧ (∀ g input1 : GoStr, g ≠ [] →
          strippedInput g = some input1 →
          isDecodeOk (decodeCalls g) = false →
          isDecodeOk (decodeCalls (unescapeGo input1)) = false →
          (∀ decoded, decodeString (unescapeGo input1) = some decoded →
            isDecodeOk (decodeCalls decoded) = false) →
          GetNetworkCalls decodeCalls decodeString g
            = some (allFailResult decodeCalls decodeString g input1, true)
          ∧ (decodeCalls g = DecodeCallsOutcome.failKeep →
              decodeCalls (unescapeGo input1) = DecodeCallsOutcome.failKeep →
              decodeString (unescapeGo input1) = none →
              GetNetworkCalls decodeCalls decodeString g = some ([], true))
          ∧ ∀ (genericParseOk : Bool) (resp : TicketResponse),
              ReportIssue decodeCalls decodeString genericParseOk g (Except.ok resp)
                = some (ReportOutcome.created resp)) := by
  intro decodeCalls decodeString j calls hne hj
  refine ⟨?_, ?_, ?_, ?_⟩
  · unfold GetNetworkCalls
    rw [if_neg hne, hj]
  · intro hw
    rw [getNetworkCalls_fallback decodeCalls decodeString (quoteWrap j)
      (escapeForQuoting j) (by simp [quoteWrap]) hw
      (strippedInput_quoted (escapeForQuoting j))]
    simp only [unescape_escape, hj]
  · intro body hb hu hs
    rw [getNetworkCalls_fallback decodeCalls decodeString (dquote :: (body ++ [dquote]))
      body (by simp) hb (strippedInput_quoted body)]
    cases ho2 : decodeCalls (unescapeGo body) with
    | ok c =>
      rw [ho2] at hu
      simp [isDecodeOk] at hu
    | failWrite c => simp only [hs, hj]
    | failKeep => simp only [hs, hj]
  · intro g input1 hg0 hstrip ho1 ho2 hds
    have hmain : GetNetworkCalls decodeCalls decodeString g
        = some (allFailResult decodeCalls decodeString g input1, true) := by
      rw [getNetworkCalls_fallback decodeCalls decodeString g input1 hg0 ho1 hstrip]
      unfold allFailResult
      cases ho2c : decodeCalls (unescapeGo input1) with
      | ok c =>
        rw [ho2c] at ho2
        simp [isDecodeOk] at ho2
      | failWrite c =>
        cases hdsc : decodeString (unescapeGo input1) with
        | none => rfl
        | some decoded =>
          have h3 := hds decoded hdsc
          cases ho3 : decodeCalls decoded with
          | ok c2 =>
            rw [ho3] at h3
            simp [isDecodeOk] at h3
          | failWrite c2 => simp [ho3]
          | failKeep => simp [ho3]
      | failKeep =>
        cases hdsc : decodeString (unescapeGo input1) with
        | none => rfl
        | some decoded =>
          have h3 := hds decoded hdsc
          cases ho3 : decodeCalls decoded with
          | ok c2 =>
            rw [ho3] at h3
            simp [isDecodeOk] at h3
          | failWrite c2 => simp [ho3]
          | failKeep => simp [ho3]
    refine ⟨hmain, ?_, ?_⟩
    · intro hk1 hk2 hk3
      rw [hmain]
      simp [allFailResult, hk1, hk2, hk3, decodeWrite]
    · intro genericParseOk resp
      unfold ReportIssue
      rw [hmain]
      cases genericParseOk <;> rfl

set_option maxRecDepth 8000 in
theorem c6_network_call_parser_cascade_amended_witness :
    GetNetworkCalls decSample decStrSample sampleArrayText = some ([sampleCall], false)
    ∧ GetNetworkCalls decSample decStrSample (quoteWrap sampleArrayText)
        = some ([sampleCall], false)
    ∧ GetNetworkCalls decSample decStrSample (dquote :: (ddBody ++ [dquote]))
        = some ([sampleCall], false)
    ∧ GetNetworkCalls decSample decStrSample (gs "@@")
        = some (allFailResult decSample decStrSample (gs "@@") (gs "@@"), true)
    ∧ GetNetworkCalls decSample decStrSample (gs "@@") = some ([], true)
    ∧ GetNetworkCalls decSample decStrSample typeMismatchText
        = some (allFailResult decSample decStrSample typeMismatchText typeMismatchText, true)
    ∧ ∀ resp : TicketResponse,
        ReportIssue decSample decStrSample true (gs "@@") (Except.ok resp)
          = some (ReportOutcome.created resp) := by
  have H := c6_network_call_parser_cascade_amended decSample decStrSample sampleArrayText
    [sampleCall] (by decide) (by decide)
  have hdsAt : ∀ d, decStrSample (unescapeGo (gs "@@")) = some d →
      isDecodeOk (decSample d) = false := by
    intro d h
    rw [show decStrSample (unescapeGo (gs "@@")) = none from by decide] at h
    exact Option.noConfusion h
  have hdsTm : ∀ d, decStrSample (unescapeGo typeMismatchText) = some d →
      isDecodeOk (decSample d) = false := by
    intro d h
    rw [show decStrSample (unescapeGo typeMismatchText) = none from by decide] at h
    exact Option.noConfusion h
  have hAt := H.2.2.2 (gs "@@") (gs "@@") (by decide) (by decide) (by decide)
    (by decide) hdsAt
  have hTm := H.2.2.2 typeMismatchText typeMismatchText (by decide) (by decide)
    (by decide) (by decide) hdsTm
  exact ⟨H.1, H.2.1 (by decide), H.2.2.1 ddBody (by decide) (by decide) (by decide),
    hAt.1, hAt.2.1 (by decide) (by decide) (by decide), hTm.1,
    fun resp => hAt.2.2 true resp⟩

/-- C7: `CreateTicket` returns an error exactly when the external
submission fails (with the submission failure message), and on a
successful submission the returned record is `respOf key assignee host`
— ticket id, status "created", assignee and link — regardless of whether
the best-effort comment attachment or MongoDB save fails; those outcomes
only appear in the action trace, never in the result. -/
theorem c7_submit_error_exactness :
    ∀ (t : TicketInput) (assignee host : GoStr) (ext : ExternalOutcomes) (r : BuildResult),
      CreateTicketDescription t = some r →
      (∀ m, ext.submit = SubmitOutcome.fail m →
        CreateTicket t assignee host ext
          = some (Except.error (gs "failed to create Jira ticket: " ++ m)))
      ∧ (∀ key, ext.submit = SubmitOutcome.ok key →
        CreateTicket t assignee host ext
          = some (Except.ok (respOf key assignee host,
              (if wasTruncated r then
                [ExtAction.addComment (commentBodyOf r) ext.commentFails] else [])
              ++ (if ext.mongoConfigured then
                [ExtAction.saveMongo ext.mongoFails] else [])))) := by
  intro t a h ext r hb
  constructor
  · intro m hm
    unfold CreateTicket
    rw [hb]
    simp only [hm]
  · intro key hk
    unfold CreateTicket
    rw [hb]
    simp only [hk]

set_option maxRecDepth 40000 in
theorem c7_submit_error_exactness_witness :
    CreateTicket smallReq (gs "agent") (gs "jira.example.com") extFailSmall
      = some (Except.error (gs "failed to create Jira ticket: " ++ gs "boom"))
    ∧ CreateTicket smallReq (gs "agent") (gs "jira.example.com") extOkSmall
      = some (Except.ok (respOf (gs "PROJ-1") (gs "agent") (gs "jira.example.com"),
          (if wasTruncated smallRes then
            [ExtAction.addComment (commentBodyOf smallRes) extOkSmall.commentFails] else [])
          ++ (if extOkSmall.mongoConfigured then
            [ExtAction.saveMongo extOkSmall.mongoFails] else []))) :=
  ⟨(c7_submit_error_exactness smallReq (gs "agent") (gs "jira.example.com") extFailSmall
      smallRes (by decide)).1 (gs "boom") rfl,
   (c7_submit_error_exactness smallReq (gs "agent") (gs "jira.example.com") extOkSmall
      smallRes (by decide)).2 (gs "PROJ-1") rfl⟩

/-- C8: after a successful submission, the comment-attachment action is
in the trace exactly when the `wasTruncated` flag is set; when nothing
was truncated no comment attachment happens at all; and the flag is set
exactly by the four section truncations and the final-size guard. -/
theorem c8_overflow_comment_iff_truncation :
    ∀ (t : TicketInput) (assignee host : GoStr) (ext : ExternalOutcomes)
      (r : BuildResult) (resp : TicketResponse) (acts : List ExtAction),
      CreateTicketDescription t = some r →
      CreateTicket t assignee host ext = some (Except.ok (resp, acts)) →
      ((ExtAction.addComment (commentBodyOf r) ext.commentFails ∈ acts)
        ↔ wasTruncated r = true)
      ∧ (wasTruncated r = false → ∀ (body : GoStr) (failed : Bool),
          ExtAction.addComment body failed ∉ acts)
      ∧ wasTruncated r
          = (r.ncTruncated || r.headersTruncated || r.responseTruncated
             || r.payloadTruncated || r.guardFired) := by
  intro t a h ext r resp acts hb hc
  unfold CreateTicket at hc
  rw [hb] at hc
  cases hsub : ext.submit with
  | fail m =>
    simp only [hsub] at hc
    simp at hc
  | ok key =>
    simp only [hsub, Option.some.injEq, Except.ok.injEq, Prod.mk.injEq] at hc
    obtain ⟨-, h2⟩ := hc
    subst h2
    refine ⟨?_, ?_, rfl⟩
    · by_cases hw : wasTruncated r = true
      · simp [hw]
      · cases hmc : ext.mongoConfigured <;> simp [hw, hmc]
    · intro hw0 body failed
      cases hmc : ext.mongoConfigured <;> simp [hw0, hmc]

set_option maxRecDepth 40000 in
theorem c8_overflow_comment_iff_truncation_witness :
    ((ExtAction.addComment (commentBodyOf smallRes) extOkSmall.commentFails
        ∈ ([] : List ExtAction))
      ↔ wasTruncated smallRes = true)
    ∧ (wasTruncated smallRes = false → ∀ (body : GoStr) (failed : Bool),
        ExtAction.addComment body failed ∉ ([] : List ExtAction))
    ∧ wasTruncated smallRes
        = (smallRes.ncTruncated || smallRes.headersTruncated || smallRes.responseTruncated
           || smallRes.payloadTruncated || smallRes.guardFired) :=
  c8_overflow_comment_iff_truncation smallReq (gs "agent") (gs "jira.example.com")
    extOkSmall smallRes (respOf (gs "PROJ-1") (gs "agent") (gs "jira.example.com")) []
    (by decide) (by rfl)

/-- C9: `getRandomTeamMember` returns the empty string on an empty
roster, and an element of the roster whenever the roster is non-empty
and the random index respects the `rand.Intn` contract. -/
theorem c9_assignee_selector :
    ∀ (team : List GoStr) (randIntn : Nat → Nat),
      (team = [] → getRandomTeamMember team randIntn = [])
      ∧ (team ≠ [] → randIntn team.length < team.length →
          getRandomTeamMember team randIntn ∈ team) := by
  intro team rand
  constructor
  · intro h
    subst h
    rfl
  · intro hne hlt
    unfold getRandomTeamMember
    rw [if_neg (fun hh => hne (List.length_eq_zero.mp hh))]
    rw [List.getD_eq_getElem?_getD, List.getElem?_eq_getElem hlt]
    simp [List.getElem_mem]

theorem c9_assignee_selector_witness :
    getRandomTeamMember ([] : List GoStr) (fun _ => 1) = []
    ∧ getRandomTeamMember sampleTeam (fun _ => 1) ∈ sampleTeam :=
  ⟨(c9_assignee_selector [] (fun _ => 1)).1 rfl,
   (c9_assignee_selector sampleTeam (fun _ => 1)).2 (by decide) (by decide)⟩

/-- C10: an empty failed-network-calls field makes `GetNetworkCalls`
return the empty list with no error, before any parsing strategy runs,
for every decoder behaviour. -/
theorem c10_empty_network_calls_success :
    ∀ (decodeCalls : GoStr → DecodeCallsOutcome)
      (decodeString : GoStr → Option GoStr),
      GetNetworkCalls decodeCalls decodeString [] = some ([], false) := by
  intro dc ds
  rfl
